import Mathlib

/-!
Verification of the CSV-to-SQLite batch loader (src/unnamed/part_000 and its
knex configuration / migrations).  The TypeScript source is shallowly embedded:

* `JSError` models a thrown JavaScript error as observed by the code
  (only `error.code` is inspected, against the string "SQLITE_BUSY").
* `retryGo` / `retryOperation` embed `retryOperation` from part_000
  (lines 29-47): a `for` loop from `attempt = 1` to `maxRetries`, retrying
  after a delay when `error.code === 'SQLITE_BUSY' && attempt < maxRetries`,
  otherwise rethrowing the caught error raw; the loop is indexed here by the
  number of remaining iterations `maxRetries - attempt + 1`, so the
  post-loop throw `Operation failed after N attempts` is the `0` case.
  The outcome of each invocation of the wrapped operation is supplied by a
  schedule `op : Nat → Except JSError T` (the environment decides how each
  attempt turns out), and the returned trace of `RetryEvent`s records which
  attempts invoked the operation and which delays were awaited.
* `parseCSV` models csv-parse with `columns: true, skip_empty_lines: true`:
  empty lines are dropped, the first remaining line names the columns, every
  later line becomes one record, and an inconsistent field count is an error.
* `insertLoop` / `ingestGo` / `processCSVStream` embed `processCSVStream`
  (lines 51-97): all records are first accumulated in memory (`readRec`
  events), then inside `retryOperation` a knex transaction inserts them one
  by one (`tryInsert` events); a failing insert aborts and rolls back the
  transaction (the table reverts to its pre-batch state), while the outer
  `totalInserted` counter keeps the increments made before the failure.
  Per-insert failures are supplied by a schedule
  `sched : Nat → Nat → Option JSError` (attempt number, record index).
* `checkDatabaseConnection` / `mainRun` embed `main` (lines 100-132):
  probe, sequential ingestion of customers.csv then organizations.csv,
  verification counts, and the `finally` block destroying the connection.
-/

/-- A thrown JavaScript error value: the code only ever inspects `error.code`
(compared to the string `"SQLITE_BUSY"`) and the message text. -/
structure JSError where
  code : Option String
  message : String
deriving Repr, DecidableEq

/-- The transient lock error sqlite3 raises when the database file is locked:
its `code` property is `"SQLITE_BUSY"`. -/
def busyError : JSError :=
  { code := some "SQLITE_BUSY", message := "SQLITE_BUSY: database is locked" }

/-- A primary-key / uniqueness constraint violation as raised by sqlite3. -/
def constraintError : JSError :=
  { code := some "SQLITE_CONSTRAINT", message := "UNIQUE constraint failed" }

/-- The error built by the statement after the retry loop in part_000 line 46:
`new Error(`Operation failed after ${maxRetries} attempts`)`.  A plain `Error`
has no `code` property. -/
def exhaustError (maxRetries : Int) : JSError :=
  { code := none, message := s!"Operation failed after {maxRetries} attempts" }

/-- Observable steps of one `retryOperation` call: invoking the wrapped
operation on a given attempt number, and awaiting `delay(delayMs)`. -/
inductive RetryEvent where
  | invoke (attempt : Nat)
  | wait (ms : Int)
deriving Repr, DecidableEq

/-- Whether a retry event is an invocation of the wrapped operation. -/
def RetryEvent.isInvoke : RetryEvent → Bool
  | .invoke _ => true
  | .wait _ => false

/-- The `for (let attempt = 1; attempt <= maxRetries; attempt++)` loop of
`retryOperation` (part_000 lines 30-44), structurally recursive on the number
`remaining = maxRetries - attempt + 1` of iterations still allowed; the guard
`attempt < maxRetries` of the retry branch is `1 ≤ r` in this indexing, and
the `remaining = 0` case is the fall-through throw of line 46. -/
def retryGo {T : Type} (op : Nat → Except JSError T) (maxRetries delayMs : Int)
    (attempt : Nat) : Nat → Except JSError T × List RetryEvent
  | 0 => (.error (exhaustError maxRetries), [])
  | r + 1 =>
    match op attempt with
    | .ok v => (.ok v, [RetryEvent.invoke attempt])
    | .error e =>
      if e.code = some "SQLITE_BUSY" ∧ 1 ≤ r then
        match retryGo op maxRetries delayMs (attempt + 1) r with
        | (res, tr) => (res, RetryEvent.invoke attempt :: RetryEvent.wait delayMs :: tr)
      else
        (.error e, [RetryEvent.invoke attempt])

/-- `retryOperation(operation, maxRetries, delayMs)` from part_000 lines 29-47,
returning the settled result together with the trace of operation invocations
and delays.  The loop starts at `attempt = 1`, so it runs `maxRetries.toNat`
times at most. -/
def retryOperation {T : Type} (op : Nat → Except JSError T)
    (maxRetries delayMs : Int) : Except JSError T × List RetryEvent :=
  retryGo op maxRetries delayMs 1 maxRetries.toNat

/-- A record, as produced by csv-parse with `columns: true`: an ordered list of
(column name, raw string value) pairs. -/
abbrev Record := List (String × String)

/-- Split a character list at every comma (the inputs carry no quoting). -/
def splitCommaAux : List Char → List Char → List (List Char)
  | [], acc => [acc.reverse]
  | c :: cs, acc =>
    if c = ',' then acc.reverse :: splitCommaAux cs []
    else splitCommaAux cs (c :: acc)

/-- Comma-splitting of one CSV line. -/
def splitComma (l : String) : List String :=
  (splitCommaAux l.toList []).map (fun cs => String.mk cs)

/-- csv-parse configured with `columns: true, skip_empty_lines: true`
(part_000 lines 54-57): empty lines are dropped, the first remaining line
names the columns, each later line yields one record aligned positionally to
those names; a line with a different field count is a parse error. -/
def parseCSV (lines : List String) : Except JSError (List Record) :=
  match lines.filter (fun l => l ≠ "") with
  | [] => .ok []
  | header :: rest =>
    let cols := splitComma header
    let rows := rest.map splitComma
    if rows.all (fun r => r.length = cols.length) then
      .ok (rows.map (fun r => cols.zip r))
    else
      .error { code := some "CSV_RECORD_INCONSISTENT_FIELDS_LENGTH",
               message := "Invalid Record Length" }

/-- Observable steps of one `processCSVStream` call: a `data` event pushing
record `i` into memory, the insert of record `i` issued on a given attempt,
and the retry delay. -/
inductive PipeEvent where
  | readRec (i : Nat)
  | tryInsert (attempt : Nat) (i : Nat)
  | wait (ms : Int)
deriving Repr, DecidableEq

/-- The `for (const record of records)` loop inside the transaction callback
(part_000 lines 76-84): insert the records one at a time into the transaction
view `tx`, incrementing the insert counter `i` after each success.  `fail i`
is the environment's verdict on inserting record number `i` in this attempt.
Returns the settled transaction view (or the thrown error), the number of
successful inserts — the increments `totalInserted` received, which survive a
rollback because the counter is a plain JS variable — and the insert trace. -/
def insertLoop (fail : Nat → Option JSError) (attempt : Nat) (tx : List Record) :
    List Record → Nat → Except JSError (List Record) × Nat × List PipeEvent
  | [], i => (.ok tx, i, [])
  | rec :: rest, i =>
    match fail i with
    | some e => (.error e, i, [PipeEvent.tryInsert attempt i])
    | none =>
      match insertLoop fail attempt (tx ++ [rec]) rest (i + 1) with
      | (res, c, evs) => (res, c, PipeEvent.tryInsert attempt i :: evs)

/-- The `retryOperation(async () => { await db.transaction(...) })` call of
part_000 lines 73-85, with the same loop structure as `retryGo`: each attempt
runs one transaction over the records starting from the pre-batch `table`
(a failed attempt was rolled back, so the next attempt sees `table` again),
while `acc` threads the `totalInserted` counter across attempts (it is
declared outside the retried closure and is never reset). -/
def ingestGo (sched : Nat → Nat → Option JSError) (table records : List Record)
    (maxRetries delayMs : Int) (attempt : Nat) (acc : Nat) :
    Nat → Except JSError (List Record) × Nat × List PipeEvent
  | 0 => (.error (exhaustError maxRetries), acc, [])
  | r + 1 =>
    match insertLoop (sched attempt) attempt table records 0 with
    | (.ok t, c, evs) => (.ok t, acc + c, evs)
    | (.error e, c, evs) =>
      if e.code = some "SQLITE_BUSY" ∧ 1 ≤ r then
        match ingestGo sched table records maxRetries delayMs (attempt + 1) (acc + c) r with
        | (res, tot, evs2) => (res, tot, evs ++ PipeEvent.wait delayMs :: evs2)
      else
        (.error e, acc + c, evs)

/-- The outcome of one `processCSVStream` call: whether its promise resolved
or rejected, the table contents it left behind, the final value of the
`totalInserted` counter (the number reported by the
`Finished inserting ... records` log), and the event trace. -/
structure IngestOutcome where
  result : Except JSError Unit
  table : List Record
  totalInserted : Nat
  events : List PipeEvent
deriving Repr

/-- `processCSVStream(filePath, tableName)` from part_000 lines 51-97.  The
file at `filePath` is the line list `lines`; `table` is the target table's
contents before the call; `sched attempt i` is the outcome of inserting
record `i` on retry attempt `attempt`.  All `data` events fire before the
`end` handler runs, so every record is accumulated in `records` before the
first insert; the insertion is wrapped in `retryOperation` with its default
arguments `maxRetries = 5, delayMs = 1000`.  A parse error rejects the
promise with no insert issued. -/
def processCSVStream (sched : Nat → Nat → Option JSError) (lines : List String)
    (table : List Record) : IngestOutcome :=
  match parseCSV lines with
  | .error e => { result := .error e, table := table, totalInserted := 0, events := [] }
  | .ok records =>
    let readEvents := (List.range records.length).map PipeEvent.readRec
    match ingestGo sched table records 5 1000 1 0 5 with
    | (.ok t, total, evs) =>
      { result := .ok (), table := t, totalInserted := total,
        events := readEvents ++ evs }
    | (.error e, total, evs) =>
      { result := .error e, table := table, totalInserted := total,
        events := readEvents ++ evs }

/-- `checkDatabaseConnection` (part_000 lines 11-20): runs the probe query
`SELECT 1`, returns `true` on success and `false` on failure — it catches the
error itself and never throws. -/
def checkDatabaseConnection (probe : Except JSError Unit) : Bool :=
  match probe with
  | .ok _ => true
  | .error _ => false

/-- Observable steps of one `main` run: the connectivity probe, the start of
one file's ingestion, a verification count query, and `db.destroy()`. -/
inductive MainEvent where
  | probe
  | ingest (tableName : String)
  | countQuery (tableName : String)
  | destroy
deriving Repr, DecidableEq

/-- The environment one `main` run executes against: the probe outcome, the
two input files with their per-insert failure schedules, and whether the
verification count query throws. -/
structure RunEnv where
  probe : Except JSError Unit
  custSched : Nat → Nat → Option JSError
  custLines : List String
  orgSched : Nat → Nat → Option JSError
  orgLines : List String
  countFail : Option JSError

/-- The two tables of the database (created by the migrations in part_001's
configuration), each a list of rows in insertion order. -/
structure RunState where
  customers : List Record
  organizations : List Record
deriving Repr, DecidableEq

/-- `main` (part_000 lines 100-132): check the connection (returning early if
the probe failed), ingest customers.csv into `customers`, then
organizations.csv into `organizations`, then query both verification counts;
any rejection jumps to the `catch` (which only logs), and the `finally` block
awaits `db.destroy()` on every path.  Returns the final database state and
the event trace. -/
def mainRun (env : RunEnv) (db : RunState) : RunState × List MainEvent :=
  if checkDatabaseConnection env.probe = false then
    (db, [MainEvent.probe, MainEvent.destroy])
  else
    let o1 := processCSVStream env.custSched env.custLines db.customers
    match o1.result with
    | .error _ =>
      ({ db with customers := o1.table },
       [MainEvent.probe, MainEvent.ingest "customers", MainEvent.destroy])
    | .ok _ =>
      let o2 := processCSVStream env.orgSched env.orgLines db.organizations
      match o2.result with
      | .error _ =>
        ({ customers := o1.table, organizations := o2.table },
         [MainEvent.probe, MainEvent.ingest "customers",
          MainEvent.ingest "organizations", MainEvent.destroy])
      | .ok _ =>
        match env.countFail with
        | some _ =>
          ({ customers := o1.table, organizations := o2.table },
           [MainEvent.probe, MainEvent.ingest "customers",
            MainEvent.ingest "organizations", MainEvent.countQuery "customers",
            MainEvent.destroy])
        | none =>
          ({ customers := o1.table, organizations := o2.table },
           [MainEvent.probe, MainEvent.ingest "customers",
            MainEvent.ingest "organizations", MainEvent.countQuery "customers",
            MainEvent.countQuery "organizations", MainEvent.destroy])

/-- Reading one column of a stored row, as a `SELECT pk FROM t` projection
does: the first value bound to that column name. -/
def lookupCol (c : String) (r : Record) : Option String :=
  (r.find? (fun p => p.1 == c)).map Prod.snd

deriving instance DecidableEq for Except

/-! ## Behaviour of the retry controller -/

/-- If every invocation of the operation fails with a `SQLITE_BUSY` error,
the loop starting at `attempt = a` with `r ≥ 1` iterations left invokes the
operation on attempts `a, a+1, …, a+r-1` and settles with the error of the
last of those attempts, thrown raw. -/
theorem retryGo_always_busy {T : Type} (op : Nat → Except JSError T)
    (errs : Nat → JSError) (hop : ∀ k, op k = Except.error (errs k))
    (hbusy : ∀ k, (errs k).code = some "SQLITE_BUSY") (m d : Int) :
    ∀ r a, 1 ≤ r →
      (retryGo op m d a r).1 = Except.error (errs (a + r - 1)) ∧
      (retryGo op m d a r).2.filter RetryEvent.isInvoke =
        (List.range' a r).map RetryEvent.invoke := by
  intro r
  induction r with
  | zero => intro a h; omega
  | succ s ih =>
    intro a _
    by_cases hs : 1 ≤ s
    · obtain ⟨hres, htr⟩ := ih (a + 1) hs
      rcases hR : retryGo op m d (a + 1) s with ⟨res, tr⟩
      rw [hR] at hres htr
      simp only at hres htr
      have hcond : (errs a).code = some "SQLITE_BUSY" ∧ 1 ≤ s := ⟨hbusy a, hs⟩
      simp only [retryGo, hop a, if_pos hcond, hR]
      refine ⟨?_, ?_⟩
      · have harith : a + 1 + s - 1 = a + (s + 1) - 1 := by omega
        rw [harith] at hres
        exact hres
      · simp [List.range'_succ, RetryEvent.isInvoke, htr]
    · have hs0 : s = 0 := by omega
      subst hs0
      have hcond : ¬((errs a).code = some "SQLITE_BUSY" ∧ 1 ≤ 0) := by simp
      simp [retryGo, hop a, if_neg hcond, RetryEvent.isInvoke, List.range'_one]

/-- Whichever attempt the loop settles on, the settled result of `retryGo` is
the outcome of one of the operation invocations (the post-loop
`Operation failed after N attempts` error is never reached once the loop body
runs at least once). -/
theorem retryGo_result_from_op {T : Type} (op : Nat → Except JSError T) (m d : Int) :
    ∀ r a, 1 ≤ r → ∃ k, a ≤ k ∧ k ≤ a + (r - 1) ∧ (retryGo op m d a r).1 = op k := by
  intro r
  induction r with
  | zero => intro a h; omega
  | succ s ih =>
    intro a _
    cases hop : op a with
    | ok v =>
      refine ⟨a, le_refl a, by omega, ?_⟩
      simp [retryGo, hop]
    | error e =>
      by_cases hcond : e.code = some "SQLITE_BUSY" ∧ 1 ≤ s
      · obtain ⟨k, hk1, hk2, hk3⟩ := ih (a + 1) hcond.2
        rcases hR : retryGo op m d (a + 1) s with ⟨res, tr⟩
        rw [hR] at hk3
        refine ⟨k, by omega, by omega, ?_⟩
        simp only [retryGo, hop, if_pos hcond, hR]
        exact hk3
      · refine ⟨a, le_refl a, by omega, ?_⟩
        simp [retryGo, hop, if_neg hcond]

/-- C1 (counterexample): an operation that fails with `SQLITE_BUSY` on every
attempt, run under the default policy `maxRetries = 5`, makes `retryOperation`
rethrow the raw underlying lock error — which is not the
`Operation failed after 5 attempts` exhaustion error the claim announces. -/
theorem c1_counterexample :
    (retryOperation (fun _ => (Except.error busyError : Except JSError Unit)) 5 1000).1 =
      Except.error busyError ∧ busyError ≠ exhaustError 5 := by
  refine ⟨by decide, ?_⟩
  intro h
  have : busyError.code = (exhaustError 5).code := by rw [h]
  simp [busyError, exhaustError] at this

/-- C1 (amended): if an operation fails with a `SQLITE_BUSY` transient lock
error on every attempt and `maxRetries ≥ 1`, `retryOperation` invokes the
operation on exactly the attempts `1, …, maxRetries` (never `maxRetries + 1`
invocations, never fewer) and then propagates the last attempt's underlying
error raw — no `RetriesExhausted`-style wrapper is signalled. -/
theorem c1_retry_bound_raw_propagation {T : Type} (op : Nat → Except JSError T)
    (errs : Nat → JSError) (hop : ∀ k, op k = Except.error (errs k))
    (hbusy : ∀ k, (errs k).code = some "SQLITE_BUSY") (m d : Int) (hm : 1 ≤ m) :
    (retryOperation op m d).1 = Except.error (errs m.toNat) ∧
    (retryOperation op m d).2.filter RetryEvent.isInvoke =
      (List.range' 1 m.toNat).map RetryEvent.invoke ∧
    ((retryOperation op m d).2.filter RetryEvent.isInvoke).length = m.toNat := by
  have h1 : 1 ≤ m.toNat := by omega
  have hmain := retryGo_always_busy op errs hop hbusy m d m.toNat 1 h1
  have harith : 1 + m.toNat - 1 = m.toNat := by omega
  rw [harith] at hmain
  have h2 : (retryOperation op m d).2.filter RetryEvent.isInvoke =
      (List.range' 1 m.toNat).map RetryEvent.invoke := hmain.2
  refine ⟨hmain.1, h2, ?_⟩
  rw [h2, List.length_map, List.length_range']

/-- Closed instance of `c1_retry_bound_raw_propagation`: the always-busy
operation under the default policy. -/
theorem c1_retry_bound_raw_propagation_witness :
    (retryOperation (fun _ => (Except.error busyError : Except JSError Unit)) 5 1000).1 =
      Except.error busyError ∧
    (retryOperation (fun _ => (Except.error busyError : Except JSError Unit)) 5 1000).2.filter
        RetryEvent.isInvoke = (List.range' 1 (Int.toNat 5)).map RetryEvent.invoke ∧
    ((retryOperation (fun _ => (Except.error busyError : Except JSError Unit)) 5 1000).2.filter
        RetryEvent.isInvoke).length = Int.toNat 5 :=
  c1_retry_bound_raw_propagation (fun _ => Except.error busyError) (fun _ => busyError)
    (fun _ => rfl) (fun _ => rfl) 5 1000 (by decide)

/-- C4: an operation whose first invocation fails with any non-`SQLITE_BUSY`
error makes `retryOperation` rethrow that error immediately: the operation is
invoked exactly once (attempt 1), no later attempt is made, and no delay is
awaited. -/
theorem c4_nontransient_no_retry {T : Type} (op : Nat → Except JSError T) (e : JSError)
    (m d : Int) (hop : op 1 = Except.error e) (hne : e.code ≠ some "SQLITE_BUSY")
    (hm : 1 ≤ m) :
    retryOperation op m d = (Except.error e, [RetryEvent.invoke 1]) := by
  obtain ⟨r, hr⟩ : ∃ r, m.toNat = r + 1 := ⟨m.toNat - 1, by omega⟩
  rw [retryOperation, hr]
  have hcond : ¬(e.code = some "SQLITE_BUSY" ∧ 1 ≤ r) := fun h => hne h.1
  simp [retryGo, hop, if_neg hcond]

/-- Closed instance of `c4_nontransient_no_retry`: a constraint violation on
attempt 1 under the default policy. -/
theorem c4_nontransient_no_retry_witness :
    retryOperation (fun _ => (Except.error constraintError : Except JSError Unit)) 5 1000 =
      (Except.error constraintError, [RetryEvent.invoke 1]) :=
  c4_nontransient_no_retry (fun _ => Except.error constraintError) constraintError 5 1000
    rfl (by simp [constraintError]) (by decide)

/-- C10: called with `maxRetries ≤ 0`, `retryOperation` never invokes the
operation (the trace is empty) and fails with the
`Operation failed after maxRetries attempts` exhaustion error naming that
count; and this is the only way to reach the exhaustion error — for
`maxRetries ≥ 1` the settled result is always the outcome of one of the
operation's own invocations. -/
theorem c10_exhaust_only_nonpositive {T : Type} (op : Nat → Except JSError T) (m d : Int) :
    (m ≤ 0 → retryOperation op m d = (Except.error (exhaustError m), [])) ∧
    (1 ≤ m → ∃ k : Nat, 1 ≤ k ∧ (k : Int) ≤ m ∧ (retryOperation op m d).1 = op k) := by
  constructor
  · intro hm
    rw [retryOperation, Int.toNat_of_nonpos hm]
    rfl
  · intro hm
    have h1 : 1 ≤ m.toNat := by omega
    obtain ⟨k, hk1, hk2, hk3⟩ := retryGo_result_from_op op m d m.toNat 1 h1
    exact ⟨k, hk1, by omega, hk3⟩

/-- Closed instance of `c10_exhaust_only_nonpositive`: with `maxRetries = 0`
the operation is skipped and the exhaustion error names the count `0`; with
`maxRetries = 3` the result comes from an actual invocation. -/
theorem c10_exhaust_only_nonpositive_witness :
    retryOperation (fun _ => (Except.ok () : Except JSError Unit)) 0 1000 =
      (Except.error (exhaustError 0), []) ∧
    ∃ k : Nat, 1 ≤ k ∧ (k : Int) ≤ 3 ∧
      (retryOperation (fun _ => (Except.ok () : Except JSError Unit)) 3 1000).1 =
        Except.ok () :=
  ⟨(c10_exhaust_only_nonpositive (fun _ => Except.ok ()) 0 1000).1 (by decide),
   (c10_exhaust_only_nonpositive (fun _ => Except.ok ()) 3 1000).2 (by decide)⟩

/-! ## Behaviour of the transactional bulk inserter -/

/-- A transaction attempt in which every insert succeeds appends the records
to the transaction view in their original order and performs exactly one
counter increment per record. -/
theorem insertLoop_ok (fail : Nat → Option JSError) (attempt : Nat) :
    ∀ (rows tx : List Record) (i : Nat) (t : List Record) (c : Nat) (evs : List PipeEvent),
      insertLoop fail attempt tx rows i = (Except.ok t, c, evs) →
      t = tx ++ rows ∧ c = i + rows.length := by
  intro rows
  induction rows with
  | nil =>
    intro tx i t c evs h
    simp only [insertLoop, Prod.mk.injEq, Except.ok.injEq] at h
    obtain ⟨h1, h2, _⟩ := h
    subst h1; subst h2
    simp
  | cons rec rest ih =>
    intro tx i t c evs h
    simp only [insertLoop] at h
    split at h
    · simp at h
    · rcases hI : insertLoop fail attempt (tx ++ [rec]) rest (i + 1) with ⟨res, c2, evs2⟩
      rw [hI] at h
      simp only [Prod.mk.injEq] at h
      obtain ⟨h1, h2, _⟩ := h
      rw [h1] at hI
      obtain ⟨ht, hc⟩ := ih (tx ++ [rec]) (i + 1) t c2 evs2 hI
      constructor
      · rw [ht, List.append_assoc]
        rfl
      · simp only [List.length_cons]
        omega

/-- No `data` (record-read) event ever appears in the trace of the insert
loop. -/
theorem insertLoop_no_read (fail : Nat → Option JSError) (attempt : Nat) :
    ∀ (rows tx : List Record) (i j : Nat),
      PipeEvent.readRec j ∉ (insertLoop fail attempt tx rows i).2.2 := by
  intro rows
  induction rows with
  | nil => intro tx i j; simp [insertLoop]
  | cons rec rest ih =>
    intro tx i j
    simp only [insertLoop]
    cases hf : fail i with
    | some e => simp
    | none =>
      rcases hI : insertLoop fail attempt (tx ++ [rec]) rest (i + 1) with ⟨res, c, evs⟩
      have hrest := ih (tx ++ [rec]) (i + 1) j
      rw [hI] at hrest
      simp only at hrest
      simp [hrest]

/-- If the retried insertion settles successfully, the committed table is the
pre-batch table with the whole batch appended in order, whichever attempt
succeeded. -/
theorem ingestGo_ok (sched : Nat → Nat → Option JSError) (table records : List Record)
    (m d : Int) :
    ∀ (r a acc : Nat) (t : List Record) (tot : Nat) (evs : List PipeEvent),
      ingestGo sched table records m d a acc r = (Except.ok t, tot, evs) →
      t = table ++ records := by
  intro r
  induction r with
  | zero =>
    intro a acc t tot evs h
    simp [ingestGo] at h
  | succ s ih =>
    intro a acc t tot evs h
    simp only [ingestGo] at h
    split at h
    · rename_i t1 c evs1 heq
      simp only [Prod.mk.injEq, Except.ok.injEq] at h
      obtain ⟨h1, _, _⟩ := h
      rw [← h1]
      exact (insertLoop_ok (sched a) a records table 0 t1 c evs1 heq).1
    · rename_i e c evs1 heq
      split at h
      · rcases hR : ingestGo sched table records m d (a + 1) (acc + c) s with ⟨res2, tot2, evs2⟩
        rw [hR] at h
        simp only [Prod.mk.injEq] at h
        obtain ⟨h1, h2, _⟩ := h
        rw [h1] at hR
        exact ih (a + 1) (acc + c) t tot2 evs2 hR
      · simp at h

/-- No `data` (record-read) event ever appears in the trace of the retried
insertion phase. -/
theorem ingestGo_no_read (sched : Nat → Nat → Option JSError) (table records : List Record)
    (m d : Int) :
    ∀ (r a acc j : Nat), PipeEvent.readRec j ∉ (ingestGo sched table records m d a acc r).2.2 := by
  intro r
  induction r with
  | zero => intro a acc j; simp [ingestGo]
  | succ s ih =>
    intro a acc j
    simp only [ingestGo]
    split
    · rename_i t1 c evs1 heq
      have h1 := insertLoop_no_read (sched a) a records table 0 j
      rw [heq] at h1
      simpa using h1
    · rename_i e c evs1 heq
      have h1 := insertLoop_no_read (sched a) a records table 0 j
      rw [heq] at h1
      simp only at h1
      split
      · rcases hR : ingestGo sched table records m d (a + 1) (acc + c) s with ⟨res2, tot2, evs2⟩
        have h2 := ih (a + 1) (acc + c) j
        rw [hR] at h2
        simp only at h2
        simp [h1, h2]
      · simpa using h1

/-- Unfolding `processCSVStream` when the file parses: the outcome is decided
by the retried insertion phase, with the `data` events for the whole batch in
front of the trace. -/
theorem processCSVStream_parse_ok (sched : Nat → Nat → Option JSError)
    (lines : List String) (table records : List Record)
    (hp : parseCSV lines = Except.ok records) :
    processCSVStream sched lines table =
      match ingestGo sched table records 5 1000 1 0 5 with
      | (Except.ok t, total, evs) =>
        { result := Except.ok (), table := t, totalInserted := total,
          events := (List.range records.length).map PipeEvent.readRec ++ evs }
      | (Except.error e, total, evs) =>
        { result := Except.error e, table := table, totalInserted := total,
          events := (List.range records.length).map PipeEvent.readRec ++ evs } := by
  unfold processCSVStream
  rw [hp]

/-- Unfolding `processCSVStream` when the file does not parse: the promise
rejects with the parse error and nothing is inserted. -/
theorem processCSVStream_parse_error (sched : Nat → Nat → Option JSError)
    (lines : List String) (table : List Record) (e : JSError)
    (hp : parseCSV lines = Except.error e) :
    processCSVStream sched lines table =
      { result := Except.error e, table := table, totalInserted := 0, events := [] } := by
  unfold processCSVStream
  rw [hp]

/-- A rejected `processCSVStream` call leaves the target table exactly as it
was: the failed transaction was rolled back. -/
theorem processCSVStream_error_table (sched : Nat → Nat → Option JSError)
    (lines : List String) (table : List Record) :
    ∀ e, (processCSVStream sched lines table).result = Except.error e →
      (processCSVStream sched lines table).table = table := by
  intro e h
  cases hp : parseCSV lines with
  | error e2 => rw [processCSVStream_parse_error sched lines table e2 hp]
  | ok records =>
    have hs := processCSVStream_parse_ok sched lines table records hp
    rcases hI : ingestGo sched table records 5 1000 1 0 5 with ⟨res, tot, evs⟩
    rw [hI] at hs
    cases res with
    | ok t =>
      rw [hs] at h
      simp at h
    | error e2 => rw [hs]

/-- A resolved `processCSVStream` call commits exactly the parsed batch,
appended to the pre-batch table in order. -/
theorem processCSVStream_ok_table (sched : Nat → Nat → Option JSError)
    (lines : List String) (table records : List Record)
    (hp : parseCSV lines = Except.ok records)
    (h : (processCSVStream sched lines table).result = Except.ok ()) :
    (processCSVStream sched lines table).table = table ++ records := by
  have hs := processCSVStream_parse_ok sched lines table records hp
  rcases hI : ingestGo sched table records 5 1000 1 0 5 with ⟨res, tot, evs⟩
  rw [hI] at hs
  cases res with
  | ok t =>
    rw [hs]
    exact ingestGo_ok sched table records 5 1000 5 1 0 t tot evs hI
  | error e2 =>
    rw [hs] at h
    simp at h

/-- The event trace of `processCSVStream` is the `data` events for the whole
batch followed by the insertion-phase events. -/
theorem processCSVStream_events (sched : Nat → Nat → Option JSError)
    (lines : List String) (table records : List Record)
    (hp : parseCSV lines = Except.ok records) :
    (processCSVStream sched lines table).events =
      (List.range records.length).map PipeEvent.readRec ++
        (ingestGo sched table records 5 1000 1 0 5).2.2 := by
  have hs := processCSVStream_parse_ok sched lines table records hp
  rcases hI : ingestGo sched table records 5 1000 1 0 5 with ⟨res, tot, evs⟩
  rw [hI] at hs
  cases res with
  | ok t => rw [hs]
  | error e2 => rw [hs]

/-- C2: a batch either commits in full or leaves no trace — whenever the
ingestion call rejects (a constraint violation, coercion failure or transient
lock made an insert fail on every allowed attempt), the transaction was
rolled back and the table's contents, hence its row count, equal the
pre-batch state; the only other possibility is a resolved call committing
exactly the whole batch, so a partial write is never observable. -/
theorem c2_atomic_no_partial_writes (sched : Nat → Nat → Option JSError)
    (lines : List String) (table records : List Record)
    (hp : parseCSV lines = Except.ok records) :
    ((processCSVStream sched lines table).result = Except.ok () ∧
      (processCSVStream sched lines table).table = table ++ records) ∨
    ((∃ e, (processCSVStream sched lines table).result = Except.error e) ∧
      (processCSVStream sched lines table).table = table ∧
      (processCSVStream sched lines table).table.length = table.length) := by
  cases hres : (processCSVStream sched lines table).result with
  | ok u =>
    cases u
    exact Or.inl ⟨rfl, processCSVStream_ok_table sched lines table records hp hres⟩
  | error e =>
    have ht := processCSVStream_error_table sched lines table e hres
    exact Or.inr ⟨⟨e, rfl⟩, ht, by rw [ht]⟩

/-- Closed instance of `c2_atomic_no_partial_writes`: a duplicate primary key
on the batch's second record against an initially empty table — the table
stays empty. -/
theorem c2_atomic_no_partial_writes_witness :
    ((processCSVStream (fun _ i => if i = 1 then some constraintError else none)
        ["id,name", "1,Alice", "1,Alice"] []).result = Except.ok () ∧
      (processCSVStream (fun _ i => if i = 1 then some constraintError else none)
        ["id,name", "1,Alice", "1,Alice"] []).table =
        [] ++ [[("id", "1"), ("name", "Alice")], [("id", "1"), ("name", "Alice")]]) ∨
    ((∃ e, (processCSVStream (fun _ i => if i = 1 then some constraintError else none)
        ["id,name", "1,Alice", "1,Alice"] []).result = Except.error e) ∧
      (processCSVStream (fun _ i => if i = 1 then some constraintError else none)
        ["id,name", "1,Alice", "1,Alice"] []).table = [] ∧
      (processCSVStream (fun _ i => if i = 1 then some constraintError else none)
        ["id,name", "1,Alice", "1,Alice"] []).table.length = List.length ([] : List Record)) :=
  c2_atomic_no_partial_writes (fun _ i => if i = 1 then some constraintError else none)
    ["id,name", "1,Alice", "1,Alice"] []
    [[("id", "1"), ("name", "Alice")], [("id", "1"), ("name", "Alice")]] (by decide)

/-- C3 (code-bug exhibit): the batch `1,Alice / 2,Bob` with a transient lock
hitting the second insert of attempt 1 and a clean attempt 2.  The call
resolves and the table gains exactly the 2 records of the batch, but the
`totalInserted` counter — the value the `Finished inserting ... records` log
reports — ends at 3, because the increment made inside the rolled-back first
attempt is never undone: the reported count does not equal the batch size. -/
theorem c3_reported_count_overcount :
    (processCSVStream (fun a i => if a = 1 ∧ i = 1 then some busyError else none)
        ["id,name", "1,Alice", "2,Bob"] []).result = Except.ok () ∧
    (processCSVStream (fun a i => if a = 1 ∧ i = 1 then some busyError else none)
        ["id,name", "1,Alice", "2,Bob"] []).table =
      [[("id", "1"), ("name", "Alice")], [("id", "2"), ("name", "Bob")]] ∧
    (processCSVStream (fun a i => if a = 1 ∧ i = 1 then some busyError else none)
        ["id,name", "1,Alice", "2,Bob"] []).totalInserted = 3 ∧
    (processCSVStream (fun a i => if a = 1 ∧ i = 1 then some busyError else none)
        ["id,name", "1,Alice", "2,Bob"] []).totalInserted ≠ 2 := by
  refine ⟨by decide, by decide, by decide, by decide⟩

/-- C7: the batch is fully materialized before any insertion begins — the
first `batch-size`-many events of an ingestion run are exactly the `data`
events reading every record of the batch, and no `data` event appears
anywhere after them: no insert is ever issued while records are still being
parsed. -/
theorem c7_materialize_before_insert (sched : Nat → Nat → Option JSError)
    (lines : List String) (table records : List Record)
    (hp : parseCSV lines = Except.ok records) :
    (processCSVStream sched lines table).events.take records.length =
      (List.range records.length).map PipeEvent.readRec ∧
    ∀ j, PipeEvent.readRec j ∉
      (processCSVStream sched lines table).events.drop records.length := by
  have he := processCSVStream_events sched lines table records hp
  have hlen : ((List.range records.length).map PipeEvent.readRec).length = records.length := by
    simp
  constructor
  · rw [he, List.take_left' hlen]
  · intro j
    rw [he, List.drop_left' hlen]
    exact ingestGo_no_read sched table records 5 1000 5 1 0 j

/-- Closed instance of `c7_materialize_before_insert`: the three-record file
read in full before its inserts. -/
theorem c7_materialize_before_insert_witness :
    (processCSVStream (fun _ _ => none) ["id,name", "1,Alice", "2,Bob", "3,Carol"]
        []).events.take
      (List.length [[("id", "1"), ("name", "Alice")], [("id", "2"), ("name", "Bob")],
        [("id", "3"), ("name", "Carol")]]) =
      (List.range (List.length [[("id", "1"), ("name", "Alice")],
        [("id", "2"), ("name", "Bob")], [("id", "3"), ("name", "Carol")]])).map
          PipeEvent.readRec ∧
    ∀ j, PipeEvent.readRec j ∉
      (processCSVStream (fun _ _ => none) ["id,name", "1,Alice", "2,Bob", "3,Carol"]
          []).events.drop
        (List.length [[("id", "1"), ("name", "Alice")], [("id", "2"), ("name", "Bob")],
          [("id", "3"), ("name", "Carol")]]) :=
  c7_materialize_before_insert (fun _ _ => none)
    ["id,name", "1,Alice", "2,Bob", "3,Carol"] []
    [[("id", "1"), ("name", "Alice")], [("id", "2"), ("name", "Bob")],
      [("id", "3"), ("name", "Carol")]] (by decide)

/-- C8: a successfully ingested batch is committed in exactly its original
order — the rows the table gained are the batch's records in sequence, so
reading the designated primary-key column of those rows in storage
(insertion) order reproduces the batch's own primary-key sequence. -/
theorem c8_order_preserved (sched : Nat → Nat → Option JSError)
    (lines : List String) (table records : List Record) (pk : String)
    (hp : parseCSV lines = Except.ok records)
    (hok : (processCSVStream sched lines table).result = Except.ok ()) :
    (processCSVStream sched lines table).table = table ++ records ∧
    ((processCSVStream sched lines table).table.drop table.length).map (lookupCol pk) =
      records.map (lookupCol pk) := by
  have ht := processCSVStream_ok_table sched lines table records hp hok
  refine ⟨ht, ?_⟩
  rw [ht, List.drop_left]

/-- Closed instance of `c8_order_preserved`: two records committed in order,
their `id` column read back in storage order. -/
theorem c8_order_preserved_witness :
    (processCSVStream (fun _ _ => none) ["id,name", "7,Gina", "4,Dan"] []).table =
      [] ++ [[("id", "7"), ("name", "Gina")], [("id", "4"), ("name", "Dan")]] ∧
    ((processCSVStream (fun _ _ => none) ["id,name", "7,Gina", "4,Dan"] []).table.drop
        (List.length ([] : List Record))).map (lookupCol "id") =
      [[("id", "7"), ("name", "Gina")], [("id", "4"), ("name", "Dan")]].map
        (lookupCol "id") :=
  c8_order_preserved (fun _ _ => none) ["id,name", "7,Gina", "4,Dan"] []
    [[("id", "7"), ("name", "Gina")], [("id", "4"), ("name", "Dan")]] "id"
    (by decide) (by decide)

/-- C9: an empty line anywhere in the input is skipped and produces no
record, and the spec's scenario — header `id,name`, rows `1,Alice`, `2,Bob`,
a blank line, `3,Carol`, against an empty table — ingests exactly 3 rows. -/
theorem c9_empty_lines_skipped :
    (∀ pre post : List String, parseCSV (pre ++ "" :: post) = parseCSV (pre ++ post)) ∧
    (processCSVStream (fun _ _ => none) ["id,name", "1,Alice", "2,Bob", "", "3,Carol"]
      []).result = Except.ok () ∧
    (processCSVStream (fun _ _ => none) ["id,name", "1,Alice", "2,Bob", "", "3,Carol"]
      []).table.length = 3 := by
  refine ⟨?_, by decide, by decide⟩
  intro pre post
  unfold parseCSV
  have hf : (pre ++ "" :: post).filter (fun l => l ≠ "") =
      (pre ++ post).filter (fun l => l ≠ "") := by
    simp
  rw [hf]

/-! ## Behaviour of the run orchestrator -/

/-- C5: when the first configured file's ingestion fails — retries exhausted
or a non-transient error such as a constraint violation — the run aborts:
the failed file's table keeps its pre-batch contents (rollback) and the
second file's ingestion is never started (no `ingest "organizations"` event
occurs in the run's trace). -/
theorem c5_abort_remaining_files (env : RunEnv) (db : RunState) (e : JSError)
    (h : (processCSVStream env.custSched env.custLines db.customers).result =
      Except.error e) :
    (mainRun env db).1.customers = db.customers ∧
    MainEvent.ingest "organizations" ∉ (mainRun env db).2 := by
  have ht := processCSVStream_error_table env.custSched env.custLines db.customers e h
  simp only [mainRun]
  by_cases hc : checkDatabaseConnection env.probe = false
  · rw [if_pos hc]
    exact ⟨rfl, by simp⟩
  · rw [if_neg hc, h]
    exact ⟨ht, by simp⟩

/-- Closed instance of `c5_abort_remaining_files`: the first file raises a
constraint violation on its second row; its table ends with 0 rows and the
organizations file is never attempted. -/
theorem c5_abort_remaining_files_witness :
    (mainRun
      { probe := Except.ok (),
        custSched := fun _ i => if i = 1 then some constraintError else none,
        custLines := ["id,name", "1,Alice", "1,Alice"],
        orgSched := fun _ _ => none,
        orgLines := ["oid,oname", "9,Acme"],
        countFail := none }
      { customers := [], organizations := [] }).1.customers = [] ∧
    MainEvent.ingest "organizations" ∉
      (mainRun
        { probe := Except.ok (),
          custSched := fun _ i => if i = 1 then some constraintError else none,
          custLines := ["id,name", "1,Alice", "1,Alice"],
          orgSched := fun _ _ => none,
          orgLines := ["oid,oname", "9,Acme"],
          countFail := none }
        { customers := [], organizations := [] }).2 :=
  c5_abort_remaining_files
    { probe := Except.ok (),
      custSched := fun _ i => if i = 1 then some constraintError else none,
      custLines := ["id,name", "1,Alice", "1,Alice"],
      orgSched := fun _ _ => none,
      orgLines := ["oid,oname", "9,Acme"],
      countFail := none }
    { customers := [], organizations := [] } constraintError (by decide)

/-- C6: whatever the run's outcome — probe failure at start, an ingestion or
verification failure, or full success — the trace of `main` contains exactly
one `db.destroy()` event: cleanup runs on every path, and only once. -/
theorem c6_destroy_exactly_once (env : RunEnv) (db : RunState) :
    (mainRun env db).2.count MainEvent.destroy = 1 := by
  simp only [mainRun]
  by_cases hc : checkDatabaseConnection env.probe = false
  · rw [if_pos hc]
    simp [List.count_cons]
  · rw [if_neg hc]
    cases h1 : (processCSVStream env.custSched env.custLines db.customers).result with
    | error e => simp [List.count_cons]
    | ok u =>
      cases u
      cases h2 : (processCSVStream env.orgSched env.orgLines db.organizations).result with
      | error e => simp [List.count_cons]
      | ok u2 =>
        cases u2
        cases env.countFail with
        | some e => simp [List.count_cons]
        | none => simp [List.count_cons]
